import Mathlib

set_option maxHeartbeats 1000000

/-! Shallow embedding of the SmartFactoryAI core orchestration engine:
`src/core/ai_control_system.py` (AIControlSystem) and
`src/core/file_tracker.py` (FileTracker), together with proofs about the
dispatcher, status registry, artifact ledger, ingestion and heartbeat paths. -/

/-- MAX_TRACKED_FILES from file_tracker.py: number of last files to track per
task type (K = 4). -/
def MAX_TRACKED_FILES : Nat := 4

/-- The five task types, the keys of task_analysis_map and task_statuses. -/
def knownTaskTypes : List String := ["CASE", "BOX", "COVER", "FORDING", "FINAL"]

/-- A record stored by the file tracker: the file_info dict built inside
FileTracker.add_file. -/
structure FileInfo where
  path : String
  filename : String
  timestamp : String
  status : String
  task_type : String
  details : String
  deriving DecidableEq

/-- Optional metadata passed to add_file; each field models a possibly absent
dict key, read in the source via metadata.get with a default. -/
structure FileMetadata where
  timestamp : Option String := none
  status : Option String := none
  details : Option String := none
  deriving DecidableEq

/-- The per-task-type lists of FileTracker.data as initialised in
FileTracker.__init__: exactly the five keys CASE, BOX, COVER, FORDING, FINAL. -/
structure TrackerData where
  CASE : List FileInfo
  BOX : List FileInfo
  COVER : List FileInfo
  FORDING : List FileInfo
  FINAL : List FileInfo
  deriving DecidableEq

/-- Dictionary lookup self.data[task_type]; none models the membership test
`task_type not in self.data` failing. -/
def TrackerData.get (d : TrackerData) (t : String) : Option (List FileInfo) :=
  if t = "CASE" then some d.CASE
  else if t = "BOX" then some d.BOX
  else if t = "COVER" then some d.COVER
  else if t = "FORDING" then some d.FORDING
  else if t = "FINAL" then some d.FINAL
  else none

/-- Dictionary assignment self.data[task_type] = l for a key of the tracker. -/
def TrackerData.set (d : TrackerData) (t : String) (l : List FileInfo) : TrackerData :=
  if t = "CASE" then { d with CASE := l }
  else if t = "BOX" then { d with BOX := l }
  else if t = "COVER" then { d with COVER := l }
  else if t = "FORDING" then { d with FORDING := l }
  else if t = "FINAL" then { d with FINAL := l }
  else d

/-- State of the FileTracker singleton: the in-memory self.data, and the content
of the tracker JSON file last written by _save_data. -/
structure TrackerState where
  data : TrackerData
  persisted : TrackerData
  deriving DecidableEq

/-- os.path.basename: the final component of a slash-separated path. -/
def basename (p : String) : String :=
  (p.splitOn "/").getLastD p

/-- FileTracker.add_file. The filesystem is external and is passed as the
predicate fsExists (os.path.exists). An unknown task type or a missing file
makes the method return with no state change and no _save_data call; otherwise
the new record is inserted at the head (newest first), the list is truncated to
MAX_TRACKED_FILES, and _save_data writes the new data to the tracker file. -/
def add_file (fsExists : String → Bool) (st : TrackerState) (task_type : String)
    (file_path : String) (metadata : Option FileMetadata) : TrackerState :=
  match st.data.get task_type with
  | none => st
  | some lst =>
    if fsExists file_path then
      let md := metadata.getD ⟨none, none, none⟩
      let file_info : FileInfo :=
        { path := file_path
          filename := basename file_path
          timestamp := md.timestamp.getD ""
          status := md.status.getD "UNKNOWN"
          task_type := task_type
          details := md.details.getD "" }
      let d' := st.data.set task_type ((file_info :: lst).take MAX_TRACKED_FILES)
      { data := d', persisted := d' }
    else st

/-- FileTracker state right after __init__ when no tracker file exists on disk:
five empty lists, persisted by the _save_data call in _load_data. -/
def initTracker : TrackerState :=
  { data := ⟨[], [], [], [], []⟩, persisted := ⟨[], [], [], [], []⟩ }

/-- The FileInfo record that one successful add_file call builds from its path
and metadata arguments for task type t. -/
def mkTrackedInfo (t : String) (c : String × Option FileMetadata) : FileInfo :=
  let md := c.2.getD ⟨none, none, none⟩
  { path := c.1
    filename := basename c.1
    timestamp := md.timestamp.getD ""
    status := md.status.getD "UNKNOWN"
    task_type := t
    details := md.details.getD "" }

/-- Folding add_file over a sequence of record calls for one task type. -/
def addAll (fsExists : String → Bool) (t : String) (st : TrackerState)
    (calls : List (String × Option FileMetadata)) : TrackerState :=
  calls.foldl (fun s c => add_file fsExists s t c.1 c.2) st

/-- One entry of AIControlSystem.task_statuses: the status string and the index
counter, which is the revision. -/
structure TaskStatus where
  status : String
  index : Nat
  deriving DecidableEq

/-- AIControlSystem.task_statuses: exactly the five fixed keys built in
__init__. -/
structure Registry where
  CASE : TaskStatus
  BOX : TaskStatus
  COVER : TaskStatus
  FORDING : TaskStatus
  FINAL : TaskStatus
  deriving DecidableEq

/-- Dictionary lookup self.task_statuses[t]; none models a key that is absent,
which makes update_task_status a no-op. -/
def Registry.get (r : Registry) (t : String) : Option TaskStatus :=
  if t = "CASE" then some r.CASE
  else if t = "BOX" then some r.BOX
  else if t = "COVER" then some r.COVER
  else if t = "FORDING" then some r.FORDING
  else if t = "FINAL" then some r.FINAL
  else none

/-- task_statuses as initialised in AIControlSystem.__init__: every type IDLE
with index 0. -/
def initRegistry : Registry :=
  ⟨⟨"IDLE", 0⟩, ⟨"IDLE", 0⟩, ⟨"IDLE", 0⟩, ⟨"IDLE", 0⟩, ⟨"IDLE", 0⟩⟩

/-- AIControlSystem.update_task_status: when task_type is a key of
task_statuses, store the new status and increment the index; for any other
task_type the method does nothing. -/
def update_task_status (r : Registry) (task_type : String) (status : String) : Registry :=
  if task_type = "CASE" then { r with CASE := ⟨status, r.CASE.index + 1⟩ }
  else if task_type = "BOX" then { r with BOX := ⟨status, r.BOX.index + 1⟩ }
  else if task_type = "COVER" then { r with COVER := ⟨status, r.COVER.index + 1⟩ }
  else if task_type = "FORDING" then { r with FORDING := ⟨status, r.FORDING.index + 1⟩ }
  else if task_type = "FINAL" then { r with FINAL := ⟨status, r.FINAL.index + 1⟩ }
  else r

/-- The revision counter of one task type, 0 when the type is not a key. -/
def revOf (r : Registry) (t : String) : Nat :=
  ((r.get t).getD ⟨"", 0⟩).index

/-- The status string of one task type, empty when the type is not a key. -/
def statusOf (r : Registry) (t : String) : String :=
  ((r.get t).getD ⟨"", 0⟩).status

/-- Running a sequence of update_task_status calls in order. -/
def runUpdates (r : Registry) (calls : List (String × String)) : Registry :=
  calls.foldl (fun a c => update_task_status a c.1 c.2) r

/-- An order-context document (the JSON object stored in ORDER_DATA_FILE):
a partial map from field names to opaque values. -/
abbrev OrderData := String → Option String

/-- The empty JSON object, returned when the order data file is missing,
empty or invalid. -/
def emptyOrder : OrderData := fun _ => none

/-- required_fields of AIControlSystem.process_web_message. -/
def required_fields : List String :=
  ["ORDER_NO", "ITEM_CD", "ITEM_NM", "ITEM_CLASS", "BOM", "RECIPE"]

/-- AIControlSystem.process_web_message: check the required fields in order and
raise ValueError at the first missing one, before the file write; otherwise
overwrite ORDER_DATA_FILE with the whole message. The value is the new file
content on success, or the raised error message. -/
def process_web_message (msg : OrderData) : Except String OrderData :=
  match required_fields.find? (fun f => (msg f).isNone) with
  | some f => Except.error ("Missing required field: " ++ f)
  | none => Except.ok msg

/-- Content of ORDER_DATA_FILE after a process_web_message call, starting from
content store: unchanged when validation raised, replaced wholesale on
success. -/
def order_file_after (store : Option OrderData) (msg : OrderData) : Option OrderData :=
  match process_web_message msg with
  | Except.error _ => store
  | Except.ok s => some s

/-- AIControlSystem.get_current_order_data: the parsed file content, or the
empty object when the file is missing or empty. -/
def get_current_order_data (file : Option OrderData) : OrderData :=
  file.getD emptyOrder

/-- A task request from a Node-RED queue. Only the START discriminator is read
by the dispatcher; the rest of the payload is passed to the analyzer opaquely. -/
structure TaskReq where
  START : Option String
  deriving DecidableEq

/-- The task_data dict passed to an analysis method: the current order data and
the original task request. -/
structure TaskData where
  order_data : OrderData
  task_request : TaskReq

/-- An analyzer result dict (AnalysisOutcome). Optional fields model possibly
absent keys. -/
structure AnalysisResult where
  status : Option String := none
  confidence : Option String := none
  details : Option String := none
  saved_file_path : Option String := none

/-- The five external TaskAnalyzer methods referenced by task_analysis_map.
Their bodies are camera/model code and are out of scope; each is an arbitrary
function from task_data to an analyzer result dict. -/
structure KnownAnalyzers where
  case_task_analysis : TaskData → AnalysisResult
  box_task_analysis : TaskData → AnalysisResult
  cover_task_analysis : TaskData → AnalysisResult
  folding_task_analysis : TaskData → AnalysisResult
  final_check_task_analysis : TaskData → AnalysisResult

/-- The unknown_task entry installed by setdefault in __init__: a lambda that
returns status ERROR with the fixed detail Unknown task. -/
def unknown_task_analysis : TaskData → AnalysisResult :=
  fun _ => { status := some "ERROR", details := some "Unknown task" }

/-- task_analysis_map as a lookup: the five known entries plus the unknown_task
entry added by setdefault. -/
def task_analysis_map (an : KnownAnalyzers) (name : String) :
    Option (TaskData → AnalysisResult) :=
  if name = "CASE" then some an.case_task_analysis
  else if name = "BOX" then some an.box_task_analysis
  else if name = "COVER" then some an.cover_task_analysis
  else if name = "FORDING" then some an.folding_task_analysis
  else if name = "FINAL" then some an.final_check_task_analysis
  else if name = "unknown_task" then some unknown_task_analysis
  else none

/-- The result dict built by process_task_analysis and sent to Node-RED. -/
structure TaskResultR where
  NAME : String
  RESULT : String
  ORDER_NO : String
  CONFIDENCE : String
  DETAILS : String
  deriving DecidableEq

/-- Observable outcome of one process_task_analysis call: the updated status
registry and file tracker, the add_file invocations (task name, saved path),
the upload_file invocations (path, task name, details), and the returned
result dict. -/
structure ProcOut where
  registry : Registry
  tracker : TrackerState
  addFileCalls : List (String × String)
  uploadCalls : List (String × String × String)
  result : TaskResultR
  deriving DecidableEq

/-- task_request.get with the START key and the UNKNOWN_TASK default. -/
def task_name_of (req : TaskReq) : String :=
  req.START.getD "UNKNOWN_TASK"

/-- The outcome returned by the analysis method that process_task_analysis
selects for the request: the task_analysis_map entry for the task name, with
the unknown_task entry as the .get fallback, applied to the task_data dict. -/
def analyzer_outcome (an : KnownAnalyzers) (orderFile : Option OrderData)
    (req : TaskReq) : AnalysisResult :=
  ((task_analysis_map an (task_name_of req)).getD unknown_task_analysis)
    ⟨get_current_order_data orderFile, req⟩

/-- The result dict returned by the except branch of process_task_analysis. -/
def error_result (task_name msg : String) : TaskResultR :=
  ⟨task_name, "ERROR", "UNKNOWN", "0%", "Error: " ++ msg⟩

/-- Tail of process_task_analysis after the artifact block: build the result
dict (RESULT is the status key when present; the .get default reduces to ERROR
when the key is absent, because None never equals COMPLETED), then make the
terminal transition: COMPLETED when RESULT is OK, ERROR otherwise. -/
def finish_task_analysis (r1 : Registry) (tracker : TrackerState)
    (task_name : String) (order_data : OrderData)
    (analysis_result : AnalysisResult) (adds : List (String × String))
    (ups : List (String × String × String)) : ProcOut :=
  let result : TaskResultR :=
    { NAME := task_name
      RESULT := analysis_result.status.getD
        (if analysis_result.status = some "COMPLETED" then "OK" else "ERROR")
      ORDER_NO := (order_data "ORDER_NO").getD "UNKNOWN"
      CONFIDENCE := analysis_result.confidence.getD "0%"
      DETAILS := analysis_result.details.getD "No details available" }
  let r2 := if result.RESULT = "OK"
    then update_task_status r1 task_name "COMPLETED"
    else update_task_status r1 task_name "ERROR"
  { registry := r2, tracker := tracker, addFileCalls := adds,
    uploadCalls := ups, result := result }

/-- AIControlSystem.process_task_analysis. Parameters: the external analyzers,
the filesystem predicate (os.path.exists), the wall-clock timestamp string
(datetime.now), the ORDER_DATA_FILE content, the registry and tracker state,
and the request. The KeyError that the source raises on a result that carries
saved_file_path but lacks the status key (or, in the NG branch, the details
key) is routed to the except branch: status forced to ERROR and a synthetic
error result returned, exactly as in the source. -/
def process_task_analysis (an : KnownAnalyzers) (fsExists : String → Bool)
    (now : String) (orderFile : Option OrderData) (registry : Registry)
    (tracker : TrackerState) (req : TaskReq) : ProcOut :=
  let task_name := task_name_of req
  let r1 := update_task_status registry task_name "RUNNING"
  let order_data := get_current_order_data orderFile
  let analysis_result := analyzer_outcome an orderFile req
  match analysis_result.saved_file_path with
  | some p =>
    if p = "" then
      finish_task_analysis r1 tracker task_name order_data analysis_result [] []
    else
      let file_metadata : FileMetadata :=
        { timestamp := some now
          status := some (analysis_result.status.getD "UNKNOWN")
          details := some (analysis_result.details.getD "") }
      let tracker' := add_file fsExists tracker task_name p (some file_metadata)
      match analysis_result.status with
      | none =>
        { registry := update_task_status r1 task_name "ERROR"
          tracker := tracker'
          addFileCalls := [(task_name, p)]
          uploadCalls := []
          result := error_result task_name "KeyError: status" }
      | some s =>
        if s = "NG" then
          match analysis_result.details with
          | none =>
            { registry := update_task_status r1 task_name "ERROR"
              tracker := tracker'
              addFileCalls := [(task_name, p)]
              uploadCalls := []
              result := error_result task_name "KeyError: details" }
          | some d =>
            finish_task_analysis r1 tracker' task_name order_data analysis_result
              [(task_name, p)] [(p, task_name, d)]
        else
          finish_task_analysis r1 tracker' task_name order_data analysis_result
            [(task_name, p)] []
  | none =>
    finish_task_analysis r1 tracker task_name order_data analysis_result [] []

/-- Behaviour of one send_result_to_node_red delivery to the external Node-RED
endpoint: the post either succeeds or a RequestException is re-raised. -/
inductive SinkBehavior
  | ok
  | raises
  deriving DecidableEq

/-- Observable outcome of one global_task_worker loop iteration: the final
registry and tracker, the result handed to send_result_to_node_red, and
whether global_task_lock was released. -/
structure WorkerOut where
  registry : Registry
  tracker : TrackerState
  sinkAttempts : List TaskResultR
  lockReleased : Bool
  deriving DecidableEq

/-- One iteration of AIControlSystem.global_task_worker for one dequeued
request. The body runs inside `with global_task_lock`, so the lock is released
when the with block exits on every path (before the except handler runs):
lockReleased is true on both paths. A sink exception is caught by the except
branch, which forces the status of the task type to ERROR. -/
def global_task_worker_iter (an : KnownAnalyzers) (fsExists : String → Bool)
    (now : String) (orderFile : Option OrderData) (sink : SinkBehavior)
    (registry : Registry) (tracker : TrackerState) (req : TaskReq) : WorkerOut :=
  let out := process_task_analysis an fsExists now orderFile registry tracker req
  match sink with
  | SinkBehavior.ok =>
    { registry := out.registry, tracker := out.tracker
      sinkAttempts := [out.result], lockReleased := true }
  | SinkBehavior.raises =>
    let task_type := task_name_of req
    { registry := update_task_status out.registry task_type "ERROR"
      tracker := out.tracker
      sinkAttempts := [out.result], lockReleased := true }

/-- Outcome of one requests.post to the ping API for one task type inside
ping_status_worker. -/
inductive PingOutcome
  | ok
  | badStatus (code : Nat)
  | exn
  deriving DecidableEq

/-- The per-cycle for-loop of ping_status_worker over the task types. The value
is the list of task types for which a post was attempted: a non-200 response
only logs a warning and the for-loop continues with the next type, while an
exception propagates out of the for-loop to the enclosing except handler,
ending the cycle at that type. -/
def ping_cycle_attempts (deliver : String → PingOutcome) : List String → List String
  | [] => []
  | t :: rest =>
    match deliver t with
    | PingOutcome.exn => [t]
    | _ => t :: ping_cycle_attempts deliver rest

/-- The while-True loop of ping_status_worker over a finite prefix of cycles:
each cycle's exception is caught by the except handler inside the loop body, so
every scheduled cycle runs regardless of failures in earlier cycles. -/
def ping_status_worker_run : List (String → PingOutcome) → List (List String)
  | [] => []
  | d :: rest => ping_cycle_attempts d knownTaskTypes :: ping_status_worker_run rest

/-- Control location of a worker thread in global_task_worker with respect to
the global task lock and the analyzer call. -/
inductive Phase
  | idle
  | hasTask
  | locked
  | analyzing
  deriving DecidableEq

/-- Global state of the task path: the FIFO global_processing_queue fed by the
producers, the holder of global_task_lock, and each worker thread's phase. -/
structure WorkerSys where
  queue : List TaskReq
  lockHolder : Option Nat
  phase : Nat → Phase

/-- Interleaving semantics of the task path. Producers (the Node-RED queue
callbacks) enqueue at any time; a worker dequeues while idle, acquires
global_task_lock only when it is free, calls the analysis method only inside
the with block, and releases the lock when the with block exits. -/
inductive WStep : WorkerSys → WorkerSys → Prop
  | enqueue (s : WorkerSys) (r : TaskReq) :
      WStep s { s with queue := s.queue ++ [r] }
  | dequeue (s : WorkerSys) (t : Nat) (r : TaskReq) (rest : List TaskReq) :
      s.phase t = Phase.idle → s.queue = r :: rest →
      WStep s { s with queue := rest
                       phase := fun n => if n = t then Phase.hasTask else s.phase n }
  | acquire (s : WorkerSys) (t : Nat) :
      s.phase t = Phase.hasTask → s.lockHolder = none →
      WStep s { s with lockHolder := some t
                       phase := fun n => if n = t then Phase.locked else s.phase n }
  | beginAnalyze (s : WorkerSys) (t : Nat) :
      s.phase t = Phase.locked →
      WStep s { s with phase := fun n => if n = t then Phase.analyzing else s.phase n }
  | endAnalyze (s : WorkerSys) (t : Nat) :
      s.phase t = Phase.analyzing →
      WStep s { s with phase := fun n => if n = t then Phase.locked else s.phase n }
  | release (s : WorkerSys) (t : Nat) :
      s.phase t = Phase.locked → s.lockHolder = some t →
      WStep s { s with lockHolder := none
                       phase := fun n => if n = t then Phase.idle else s.phase n }

/-- Initial state: empty queue, lock free, every thread idle. -/
def initSys : WorkerSys :=
  { queue := [], lockHolder := none, phase := fun _ => Phase.idle }

/-- States reachable from the initial state by any interleaving. -/
inductive WReachable : WorkerSys → Prop
  | init : WReachable initSys
  | step (s s' : WorkerSys) : WReachable s → WStep s s' → WReachable s'

/-- Lock-ownership invariant: any thread inside the with block (locked or
analyzing) is the holder of global_task_lock. -/
def LockInv (s : WorkerSys) : Prop :=
  ∀ t : Nat, (s.phase t = Phase.locked ∨ s.phase t = Phase.analyzing) →
    s.lockHolder = some t

/-- The initial state satisfies the lock-ownership invariant. -/
theorem lockInv_init : LockInv initSys := by
  intro t h
  rcases h with h | h <;> simp [initSys] at h

/-- Every step of the task path preserves the lock-ownership invariant. -/
theorem lockInv_step (s s' : WorkerSys) (hs : LockInv s) (hstep : WStep s s') :
    LockInv s' := by
  intro t h
  cases hstep with
  | enqueue r => exact hs t h
  | dequeue t0 r rest hph hq =>
      simp only at h ⊢
      by_cases he : t = t0
      · subst he; simp at h
      · simp only [if_neg he] at h
        exact hs t h
  | acquire t0 hph hl =>
      simp only at h ⊢
      by_cases he : t = t0
      · subst he; rfl
      · simp only [if_neg he] at h
        have h2 := hs t h
        rw [hl] at h2
        cases h2
  | beginAnalyze t0 hph =>
      simp only at h ⊢
      by_cases he : t = t0
      · subst he
        exact hs t (Or.inl hph)
      · simp only [if_neg he] at h
        exact hs t h
  | endAnalyze t0 hph =>
      simp only at h ⊢
      by_cases he : t = t0
      · subst he
        exact hs t (Or.inr hph)
      · simp only [if_neg he] at h
        exact hs t h
  | release t0 hph hl =>
      simp only at h ⊢
      by_cases he : t = t0
      · subst he; simp at h
      · simp only [if_neg he] at h
        have h2 := hs t h
        rw [hl] at h2
        exact absurd (Option.some.inj h2).symm he

/-- Every reachable state satisfies the lock-ownership invariant. -/
theorem lockInv_reachable (s : WorkerSys) (hs : WReachable s) : LockInv s := by
  induction hs with
  | init => exact lockInv_init
  | step s s' _ hstep ih => exact lockInv_step s s' ih hstep

/-- C1: single-flight dispatch. In every state reachable under any interleaving
of producers and workers, at most one thread is inside an analyzer invocation:
two threads both in the analyzing phase must be the same thread, because the
thread inside the with block is always the unique holder of the single
global_task_lock. Hence no two analyzer invocation intervals overlap. -/
theorem analyzer_single_flight (s : WorkerSys) (hs : WReachable s) (t1 t2 : Nat)
    (h1 : s.phase t1 = Phase.analyzing) (h2 : s.phase t2 = Phase.analyzing) :
    t1 = t2 := by
  have i := lockInv_reachable s hs
  have e1 := i t1 (Or.inr h1)
  have e2 := i t2 (Or.inr h2)
  rw [e1] at e2
  exact Option.some.inj e2

/-- A demonstration request used by the reachability witness. -/
def demoReq : TaskReq := ⟨some "CASE"⟩

/-- State after one producer enqueues demoReq into the empty system. -/
def sysA : WorkerSys := { initSys with queue := initSys.queue ++ [demoReq] }

/-- State after worker thread 0 dequeues the request. -/
def sysB : WorkerSys :=
  { sysA with queue := []
              phase := fun n => if n = 0 then Phase.hasTask else sysA.phase n }

/-- State after worker thread 0 acquires global_task_lock. -/
def sysC : WorkerSys :=
  { sysB with lockHolder := some 0
              phase := fun n => if n = 0 then Phase.locked else sysB.phase n }

/-- State after worker thread 0 enters the analyzer call. -/
def sysD : WorkerSys :=
  { sysC with phase := fun n => if n = 0 then Phase.analyzing else sysC.phase n }

/-- C1 witness: a concrete interleaving enqueues one request, dequeues it,
acquires the lock and enters the analyzer; the single-flight theorem applies to
the resulting reachable state. -/
theorem analyzer_single_flight_witness :
    sysD.phase 0 = Phase.analyzing ∧ (0 : Nat) = 0 := by
  have hA : WReachable sysA :=
    WReachable.step _ _ WReachable.init (WStep.enqueue initSys demoReq)
  have hB : WReachable sysB :=
    WReachable.step _ _ hA (WStep.dequeue sysA 0 demoReq [] rfl rfl)
  have hC : WReachable sysC :=
    WReachable.step _ _ hB (WStep.acquire sysB 0 rfl rfl)
  have hD : WReachable sysD :=
    WReachable.step _ _ hC (WStep.beginAnalyze sysC 0 rfl)
  exact ⟨rfl, analyzer_single_flight sysD hD 0 0 rfl rfl⟩

/-- Looking up a tracker key just set yields the new list. -/
theorem TrackerData.get_set_self (d : TrackerData) (t : String)
    (ht : t ∈ knownTaskTypes) (l : List FileInfo) : (d.set t l).get t = some l := by
  simp only [knownTaskTypes, List.mem_cons, List.not_mem_nil, or_false] at ht
  rcases ht with rfl | rfl | rfl | rfl | rfl <;>
    simp [TrackerData.get, TrackerData.set]

/-- Lookup of a key outside the five tracker keys yields none. -/
theorem TrackerData.get_unknown (d : TrackerData) (t : String)
    (ht : t ∉ knownTaskTypes) : d.get t = none := by
  simp only [knownTaskTypes, List.mem_cons, List.not_mem_nil, or_false,
    not_or] at ht
  obtain ⟨h1, h2, h3, h4, h5⟩ := ht
  simp [TrackerData.get, h1, h2, h3, h4, h5]

/-- Truncating after prepending to an already truncated list is the same as
truncating the untruncated prepend. -/
theorem take_append_take {α : Type} (A l : List α) (n : Nat) :
    (A ++ l.take n).take n = (A ++ l).take n := by
  rw [List.take_append_eq_append_take, List.take_append_eq_append_take,
    List.take_take, Nat.min_eq_left (Nat.sub_le n A.length)]

/-- Invariant of the per-type tracker list under a sequence of successful
add_file calls: the list is the truncation of all recorded entries, newest
first, on top of the starting list. -/
theorem addAll_get (fsExists : String → Bool) (t : String)
    (ht : t ∈ knownTaskTypes) (calls : List (String × Option FileMetadata))
    (st : TrackerState) (lst : List FileInfo) (hst : st.data.get t = some lst)
    (hlen : lst.length ≤ MAX_TRACKED_FILES)
    (hex : ∀ c ∈ calls, fsExists c.1 = true) :
    (addAll fsExists t st calls).data.get t =
      some (((calls.map (mkTrackedInfo t)).reverse ++ lst).take MAX_TRACKED_FILES) := by
  induction calls generalizing st lst with
  | nil =>
      simpa [addAll, hst] using (List.take_of_length_le hlen).symm
  | cons c cs ih =>
      have hc : fsExists c.1 = true := hex c (List.mem_cons_self c cs)
      have hstep : (add_file fsExists st t c.1 c.2).data.get t =
          some ((mkTrackedInfo t c :: lst).take MAX_TRACKED_FILES) := by
        simp only [add_file, hst, hc, if_true]
        exact TrackerData.get_set_self _ t ht _
      have hlen' : ((mkTrackedInfo t c :: lst).take MAX_TRACKED_FILES).length ≤
          MAX_TRACKED_FILES := by
        simp [List.length_take]
      have hrec := ih (add_file fsExists st t c.1 c.2) _ hstep hlen'
        (fun x hx => hex x (List.mem_cons_of_mem c hx))
      have hfold : addAll fsExists t st (c :: cs) =
          addAll fsExists t (add_file fsExists st t c.1 c.2) cs := rfl
      rw [hfold, hrec, take_append_take]
      simp [List.append_assoc]

/-- C2: ledger bound invariant. For every tracked task type and every sequence
of successful add_file calls starting from the fresh tracker, the per-type
history equals the list of all recorded entries, newest first, truncated to
MAX_TRACKED_FILES = 4: it is exactly the 4 most recently recorded entries,
newest first, with the oldest evicted, and its length never exceeds 4. -/
theorem ledger_bound_invariant (fsExists : String → Bool) (t : String)
    (calls : List (String × Option FileMetadata)) (ht : t ∈ knownTaskTypes)
    (hex : ∀ c ∈ calls, fsExists c.1 = true) :
    (addAll fsExists t initTracker calls).data.get t =
      some (((calls.map (mkTrackedInfo t)).reverse).take MAX_TRACKED_FILES) ∧
    (((calls.map (mkTrackedInfo t)).reverse).take MAX_TRACKED_FILES).length ≤
      MAX_TRACKED_FILES := by
  have h0 : initTracker.data.get t = some [] := by
    have ht' := ht
    simp only [knownTaskTypes, List.mem_cons, List.not_mem_nil, or_false] at ht'
    rcases ht' with rfl | rfl | rfl | rfl | rfl <;> rfl
  have h := addAll_get fsExists t ht calls initTracker [] h0 (by simp) hex
  constructor
  · simpa using h
  · simp [List.length_take]

/-- The five record calls of the C2 example scenario: five artifacts recorded
for COVER with K = 4. -/
def coverCalls : List (String × Option FileMetadata) :=
  [("f1.jpg", none), ("f2.jpg", none), ("f3.jpg", none), ("f4.jpg", none),
   ("f5.jpg", none)]

/-- C2 witness: recording five artifacts for COVER leaves exactly the four most
recent, newest first. -/
theorem ledger_bound_invariant_witness :
    (addAll (fun _ => true) "COVER" initTracker coverCalls).data.get "COVER" =
      some (((coverCalls.map (mkTrackedInfo "COVER")).reverse).take
        MAX_TRACKED_FILES) :=
  (ledger_bound_invariant (fun _ => true) "COVER" coverCalls (by decide)
    (fun _ _ => rfl)).1

/-- C10: frame effect of add_file. A call with a task type outside the five
tracked types returns without mutating anything: neither the in-memory lists
nor the persisted tracker file change. The same holds when the given file path
does not exist on disk. -/
theorem add_file_frame (fsExists : String → Bool) (st : TrackerState)
    (task_type file_path : String) (md : Option FileMetadata) :
    (task_type ∉ knownTaskTypes →
      add_file fsExists st task_type file_path md = st) ∧
    (fsExists file_path = false →
      add_file fsExists st task_type file_path md = st) := by
  constructor
  · intro ht
    simp [add_file, TrackerData.get_unknown st.data task_type ht]
  · intro hf
    unfold add_file
    cases h : st.data.get task_type with
    | none => rfl
    | some lst => simp [hf]

/-- C10 witness: recording for the unknown type SHIP, or recording a path that
does not exist, leaves the fresh tracker untouched. -/
theorem add_file_frame_witness :
    add_file (fun _ => false) initTracker "SHIP" "p.jpg" none = initTracker ∧
    add_file (fun _ => false) initTracker "CASE" "p.jpg" none = initTracker :=
  ⟨(add_file_frame (fun _ => false) initTracker "SHIP" "p.jpg" none).1
      (by decide),
   (add_file_frame (fun _ => false) initTracker "CASE" "p.jpg" none).2 rfl⟩

/-- update_task_status on a key of task_statuses increments that key's index. -/
theorem revOf_update_self (r : Registry) (t s : String)
    (ht : t ∈ knownTaskTypes) :
    revOf (update_task_status r t s) t = revOf r t + 1 := by
  simp only [knownTaskTypes, List.mem_cons, List.not_mem_nil, or_false] at ht
  rcases ht with rfl | rfl | rfl | rfl | rfl <;>
    simp [revOf, Registry.get, update_task_status]

/-- update_task_status on a key of task_statuses stores the new status. -/
theorem statusOf_update_self (r : Registry) (t s : String)
    (ht : t ∈ knownTaskTypes) :
    statusOf (update_task_status r t s) t = s := by
  simp only [knownTaskTypes, List.mem_cons, List.not_mem_nil, or_false] at ht
  rcases ht with rfl | rfl | rfl | rfl | rfl <;>
    simp [statusOf, Registry.get, update_task_status]

/-- No update_task_status call ever lowers the revision counter of a tracked
task type. -/
theorem revOf_update_ge (r : Registry) (ty s t : String)
    (ht : t ∈ knownTaskTypes) :
    revOf r t ≤ revOf (update_task_status r ty s) t := by
  simp only [knownTaskTypes, List.mem_cons, List.not_mem_nil, or_false] at ht
  rcases ht with rfl | rfl | rfl | rfl | rfl <;>
    (unfold update_task_status
     repeat' split
     all_goals simp [revOf, Registry.get])

/-- A sequence of update_task_status calls never lowers the revision counter of
a tracked task type. -/
theorem revOf_runUpdates_ge (t : String) (ht : t ∈ knownTaskTypes)
    (calls : List (String × String)) (r : Registry) :
    revOf r t ≤ revOf (runUpdates r calls) t := by
  induction calls generalizing r with
  | nil => exact le_refl _
  | cons c cs ih =>
      have h1 := revOf_update_ge r c.1 c.2 t ht
      have h2 := ih (update_task_status r c.1 c.2)
      exact le_trans h1 h2

/-- C6: revision monotonicity. For every tracked task type, the initial entry
is IDLE with revision 0; each update_task_status call for that type strictly
increases its revision by exactly one; no sequence of calls ever lowers it; and
after a call for that type followed by any further calls the revision stays
strictly above every value observed before the call, so a revision value never
repeats across transitions. -/
theorem revision_monotonicity (t : String) (ht : t ∈ knownTaskTypes) :
    revOf initRegistry t = 0 ∧
    statusOf initRegistry t = "IDLE" ∧
    (∀ r s, revOf (update_task_status r t s) t = revOf r t + 1) ∧
    (∀ r calls, revOf r t ≤ revOf (runUpdates r calls) t) ∧
    (∀ r s calls,
      revOf r t < revOf (runUpdates (update_task_status r t s) calls) t) := by
  refine ⟨?_, ?_, ?_, ?_, ?_⟩
  · have ht' := ht
    simp only [knownTaskTypes, List.mem_cons, List.not_mem_nil, or_false] at ht'
    rcases ht' with rfl | rfl | rfl | rfl | rfl <;> rfl
  · have ht' := ht
    simp only [knownTaskTypes, List.mem_cons, List.not_mem_nil, or_false] at ht'
    rcases ht' with rfl | rfl | rfl | rfl | rfl <;> rfl
  · intro r s
    exact revOf_update_self r t s ht
  · intro r calls
    exact revOf_runUpdates_ge t ht calls r
  · intro r s calls
    have h1 : revOf r t < revOf (update_task_status r t s) t := by
      rw [revOf_update_self r t s ht]
      exact Nat.lt_succ_self _
    exact lt_of_lt_of_le h1 (revOf_runUpdates_ge t ht calls _)

/-- C6 witness: for CASE, the initial revision is 0 and one RUNNING transition
raises it to exactly one more than before. -/
theorem revision_monotonicity_witness :
    revOf initRegistry "CASE" = 0 ∧
    revOf (update_task_status initRegistry "CASE" "RUNNING") "CASE" =
      revOf initRegistry "CASE" + 1 := by
  have h := revision_monotonicity "CASE" (by decide)
  exact ⟨h.1, h.2.2.1 initRegistry "RUNNING"⟩

/-- C4: order-context update atomicity on validation failure. When an inbound
order-context message lacks at least one required field, process_web_message
raises (returns an error) before the file write, the stored order data file is
unchanged, and get_current_order_data still reads the prior context. -/
theorem order_context_validation (store : Option OrderData) (msg : OrderData)
    (f : String) (hf : f ∈ required_fields) (hmiss : msg f = none) :
    (∃ g, process_web_message msg =
      Except.error ("Missing required field: " ++ g)) ∧
    order_file_after store msg = store ∧
    get_current_order_data (order_file_after store msg) =
      get_current_order_data store := by
  have hsome : (required_fields.find? (fun x => (msg x).isNone)).isSome := by
    rw [List.find?_isSome]
    exact ⟨f, hf, by simp [hmiss]⟩
  obtain ⟨g, hg⟩ := Option.isSome_iff_exists.mp hsome
  have herr : process_web_message msg =
      Except.error ("Missing required field: " ++ g) := by
    unfold process_web_message
    rw [hg]
  refine ⟨⟨g, herr⟩, ?_, ?_⟩
  · unfold order_file_after
    rw [herr]
  · unfold order_file_after
    rw [herr]

/-- The C4 example message: every required field present except BOM. -/
def msgMissingBOM : OrderData :=
  fun f => if f = "BOM" then none else some "v"

/-- The prior order context used by the C4 witness. -/
def priorOrder : OrderData := fun _ => some "old"

/-- C4 witness: an update missing the BOM field is rejected and the prior
context is retained and still read afterwards. -/
theorem order_context_validation_witness :
    (∃ g, process_web_message msgMissingBOM =
      Except.error ("Missing required field: " ++ g)) ∧
    order_file_after (some priorOrder) msgMissingBOM = some priorOrder ∧
    get_current_order_data (order_file_after (some priorOrder) msgMissingBOM) =
      get_current_order_data (some priorOrder) :=
  order_context_validation (some priorOrder) msgMissingBOM "BOM" (by decide) rfl

/-- update_task_status is a no-op for a task type outside the five registry
keys. -/
theorem update_task_status_unknown (r : Registry) (t s : String)
    (ht : t ∉ knownTaskTypes) : update_task_status r t s = r := by
  simp only [knownTaskTypes, List.mem_cons, List.not_mem_nil, or_false,
    not_or] at ht
  obtain ⟨h1, h2, h3, h4, h5⟩ := ht
  simp [update_task_status, h1, h2, h3, h4, h5]

/-- task_analysis_map has no entry for a name outside the five task types and
the unknown_task key. -/
theorem task_analysis_map_unknown (an : KnownAnalyzers) (t : String)
    (ht : t ∉ knownTaskTypes) (hu : t ≠ "unknown_task") :
    task_analysis_map an t = none := by
  simp only [knownTaskTypes, List.mem_cons, List.not_mem_nil, or_false,
    not_or] at ht
  obtain ⟨h1, h2, h3, h4, h5⟩ := ht
  simp [task_analysis_map, h1, h2, h3, h4, h5, hu]

/-- A trivial stand-in for the five external analyzers; it is never consulted
on the unknown-task path. -/
def trivialAnalyzers : KnownAnalyzers :=
  ⟨fun _ => ⟨none, none, none, none⟩, fun _ => ⟨none, none, none, none⟩,
   fun _ => ⟨none, none, none, none⟩, fun _ => ⟨none, none, none, none⟩,
   fun _ => ⟨none, none, none, none⟩⟩

/-- C5 counterexample: dispatching the unknown task type SHIP does produce the
terminal result ERROR with the fixed detail Unknown task and no crash, but the
StatusRegistry stays in its initial all-IDLE state with revision 0: neither the
claimed RUNNING transition nor the terminal ERROR transition is recorded,
because update_task_status ignores task types that are not registry keys. -/
theorem unknown_task_no_registry_transition :
    (process_task_analysis trivialAnalyzers (fun _ => true) "ts" none
      initRegistry initTracker ⟨some "SHIP"⟩).result.RESULT = "ERROR" ∧
    (process_task_analysis trivialAnalyzers (fun _ => true) "ts" none
      initRegistry initTracker ⟨some "SHIP"⟩).result.DETAILS = "Unknown task" ∧
    (process_task_analysis trivialAnalyzers (fun _ => true) "ts" none
      initRegistry initTracker ⟨some "SHIP"⟩).registry = initRegistry ∧
    statusOf (process_task_analysis trivialAnalyzers (fun _ => true) "ts" none
      initRegistry initTracker ⟨some "SHIP"⟩).registry "CASE" = "IDLE" ∧
    revOf (process_task_analysis trivialAnalyzers (fun _ => true) "ts" none
      initRegistry initTracker ⟨some "SHIP"⟩).registry "CASE" = 0 := by
  decide

/-- C5 (amended): a task request whose START discriminator is not a known task
type is not rejected: process_task_analysis resolves it through the
unknown_task entry to a terminal result with RESULT ERROR and the fixed detail
Unknown task, without raising, and the result is still built and returned for
sink delivery; however the RUNNING and terminal ERROR status transitions are
no-ops on the StatusRegistry, whose keys are only the five known types, so the
registry, the tracker and the ledger are left unchanged and nothing is
uploaded. -/
theorem unknown_task_resolution (an : KnownAnalyzers) (fsExists : String → Bool)
    (now : String) (orderFile : Option OrderData) (r : Registry)
    (tk : TrackerState) (req : TaskReq) (tt : String)
    (hstart : req.START = some tt) (hunk : tt ∉ knownTaskTypes)
    (hu : tt ≠ "unknown_task") :
    (process_task_analysis an fsExists now orderFile r tk req).result =
      ⟨tt, "ERROR",
        (get_current_order_data orderFile "ORDER_NO").getD "UNKNOWN", "0%",
        "Unknown task"⟩ ∧
    (process_task_analysis an fsExists now orderFile r tk req).registry = r ∧
    (process_task_analysis an fsExists now orderFile r tk req).tracker = tk ∧
    (process_task_analysis an fsExists now orderFile r tk req).addFileCalls = [] ∧
    (process_task_analysis an fsExists now orderFile r tk req).uploadCalls = [] := by
  have hname : task_name_of req = tt := by simp [task_name_of, hstart]
  have hao : analyzer_outcome an orderFile req =
      { status := some "ERROR", details := some "Unknown task" } := by
    unfold analyzer_outcome
    rw [hname, task_analysis_map_unknown an tt hunk hu]
    rfl
  have hupd : ∀ s, update_task_status r tt s = r :=
    fun s => update_task_status_unknown r tt s hunk
  unfold process_task_analysis
  rw [hname, hao]
  simp [finish_task_analysis, hupd]

/-- C5 witness for the amended claim: the SHIP request resolves to the ERROR
result with the Unknown task detail while the registry keeps its initial
state. -/
theorem unknown_task_resolution_witness :
    (process_task_analysis trivialAnalyzers (fun _ => true) "ts" none
      initRegistry initTracker ⟨some "SHIP"⟩).result =
      ⟨"SHIP", "ERROR",
        (get_current_order_data none "ORDER_NO").getD "UNKNOWN", "0%",
        "Unknown task"⟩ ∧
    (process_task_analysis trivialAnalyzers (fun _ => true) "ts" none
      initRegistry initTracker ⟨some "SHIP"⟩).registry = initRegistry := by
  have h := unknown_task_resolution trivialAnalyzers (fun _ => true) "ts" none
    initRegistry initTracker ⟨some "SHIP"⟩ "SHIP" rfl (by decide) (by decide)
  exact ⟨h.1, h.2.1⟩

/-- Analyzers whose CASE analysis returns an NG outcome with no artifact, as
the cover/box analyses in task_analyzer.py do on a failed inspection. -/
def ngAnalyzers : KnownAnalyzers :=
  ⟨fun _ => ⟨some "NG", some "0%", some "Q002", none⟩,
   fun _ => ⟨none, none, none, none⟩, fun _ => ⟨none, none, none, none⟩,
   fun _ => ⟨none, none, none, none⟩, fun _ => ⟨none, none, none, none⟩⟩

/-- C7 counterexample: an analyzer outcome with status NG is handed to the sink
with RESULT equal to NG, which is neither OK nor ERROR; the registry still
transitions to ERROR because NG differs from OK. -/
theorem result_ng_passthrough :
    (process_task_analysis ngAnalyzers (fun _ => true) "ts" none initRegistry
      initTracker ⟨some "CASE"⟩).result.RESULT = "NG" ∧
    ¬((process_task_analysis ngAnalyzers (fun _ => true) "ts" none initRegistry
        initTracker ⟨some "CASE"⟩).result.RESULT = "OK" ∨
      (process_task_analysis ngAnalyzers (fun _ => true) "ts" none initRegistry
        initTracker ⟨some "CASE"⟩).result.RESULT = "ERROR") ∧
    statusOf (process_task_analysis ngAnalyzers (fun _ => true) "ts" none
      initRegistry initTracker ⟨some "CASE"⟩).registry "CASE" = "ERROR" := by
  decide

/-- C7 (amended): for every task whose analysis outcome carries both a status
and a details value (so no KeyError escapes on the artifact path), the RESULT
field handed to the sink equals the outcome's status string verbatim, which may
be NG or any analyzer-chosen value, and only defaults to ERROR when the status
key is absent; the StatusRegistry transitions to COMPLETED exactly when RESULT
is OK and to ERROR otherwise. -/
theorem result_field_domain (an : KnownAnalyzers) (fsExists : String → Bool)
    (now : String) (orderFile : Option OrderData) (r : Registry)
    (tk : TrackerState) (req : TaskReq) (s d : String)
    (har : (analyzer_outcome an orderFile req).status = some s)
    (hard : (analyzer_outcome an orderFile req).details = some d) :
    (process_task_analysis an fsExists now orderFile r tk req).result.RESULT = s ∧
    (task_name_of req ∈ knownTaskTypes →
      statusOf
        (process_task_analysis an fsExists now orderFile r tk req).registry
        (task_name_of req) = if s = "OK" then "COMPLETED" else "ERROR") := by
  have key : ∀ (tk2 : TrackerState) (adds : List (String × String))
      (ups : List (String × String × String)),
      (finish_task_analysis
        (update_task_status r (task_name_of req) "RUNNING") tk2
        (task_name_of req) (get_current_order_data orderFile)
        (analyzer_outcome an orderFile req) adds ups).result.RESULT = s ∧
      (task_name_of req ∈ knownTaskTypes →
        statusOf (finish_task_analysis
          (update_task_status r (task_name_of req) "RUNNING") tk2
          (task_name_of req) (get_current_order_data orderFile)
          (analyzer_outcome an orderFile req) adds ups).registry
          (task_name_of req) = if s = "OK" then "COMPLETED" else "ERROR") := by
    intro tk2 adds ups
    constructor
    · simp [finish_task_analysis, har]
    · intro hkn
      by_cases hs : s = "OK"
      · subst hs
        simp [finish_task_analysis, har, statusOf_update_self _ _ _ hkn]
      · simp [finish_task_analysis, har, hs, statusOf_update_self _ _ _ hkn]
  unfold process_task_analysis
  cases hp : (analyzer_outcome an orderFile req).saved_file_path with
  | none =>
      simp only [hp]
      exact key tk [] []
  | some p =>
      simp only [hp]
      by_cases hpe : p = ""
      · rw [if_pos hpe]
        exact key tk [] []
      · rw [if_neg hpe]
        simp only [har]
        by_cases hs : s = "NG"
        · subst hs
          rw [if_pos rfl]
          simp only [hard]
          exact key _ _ _
        · rw [if_neg hs]
          exact key _ _ _

/-- C7 witness: with the NG analyzer the RESULT handed to the sink is NG and
the CASE entry ends in ERROR. -/
theorem result_field_domain_witness :
    (process_task_analysis ngAnalyzers (fun _ => true) "ts" none initRegistry
      initTracker ⟨some "CASE"⟩).result.RESULT = "NG" ∧
    statusOf (process_task_analysis ngAnalyzers (fun _ => true) "ts" none
      initRegistry initTracker ⟨some "CASE"⟩).registry "CASE" =
      if "NG" = "OK" then "COMPLETED" else "ERROR" := by
  have h := result_field_domain ngAnalyzers (fun _ => true) "ts" none
    initRegistry initTracker ⟨some "CASE"⟩ "NG" "Q002" rfl rfl
  exact ⟨h.1, h.2 (by decide)⟩

/-- C9: NG-only artifact escalation. For every analysis outcome that carries a
non-empty saved artifact path together with status and details values, the
artifact is recorded via add_file unconditionally, while upload_file is invoked
if and only if the outcome status is NG, and then exactly once with the
artifact path, the task name and the details; OK artifacts are recorded and
never escalated. -/
theorem ng_only_escalation (an : KnownAnalyzers) (fsExists : String → Bool)
    (now : String) (orderFile : Option OrderData) (r : Registry)
    (tk : TrackerState) (req : TaskReq) (s d p : String)
    (har : (analyzer_outcome an orderFile req).status = some s)
    (hard : (analyzer_outcome an orderFile req).details = some d)
    (harp : (analyzer_outcome an orderFile req).saved_file_path = some p)
    (hp : p ≠ "") :
    (process_task_analysis an fsExists now orderFile r tk req).addFileCalls =
      [(task_name_of req, p)] ∧
    ((process_task_analysis an fsExists now orderFile r tk req).uploadCalls ≠ []
      ↔ s = "NG") ∧
    (process_task_analysis an fsExists now orderFile r tk req).uploadCalls =
      (if s = "NG" then [(p, task_name_of req, d)] else []) := by
  unfold process_task_analysis
  simp only [harp]
  rw [if_neg hp]
  simp only [har]
  by_cases hs : s = "NG"
  · subst hs
    rw [if_pos rfl]
    simp only [hard]
    simp [finish_task_analysis]
  · rw [if_neg hs]
    simp [finish_task_analysis, hs]

/-- Analyzers whose CASE analysis returns an NG outcome with a saved artifact,
as the cover analysis in task_analyzer.py does on a failed inspection. -/
def ngArtifactAnalyzers : KnownAnalyzers :=
  ⟨fun _ => ⟨some "NG", some "0%", some "Q002", some "art.jpg"⟩,
   fun _ => ⟨none, none, none, none⟩, fun _ => ⟨none, none, none, none⟩,
   fun _ => ⟨none, none, none, none⟩, fun _ => ⟨none, none, none, none⟩⟩

/-- C9 witness: the NG artifact is recorded once and uploaded once. -/
theorem ng_only_escalation_witness :
    (process_task_analysis ngArtifactAnalyzers (fun _ => true) "ts" none
      initRegistry initTracker ⟨some "CASE"⟩).addFileCalls =
      [("CASE", "art.jpg")] ∧
    (process_task_analysis ngArtifactAnalyzers (fun _ => true) "ts" none
      initRegistry initTracker ⟨some "CASE"⟩).uploadCalls =
      (if "NG" = "NG" then [("art.jpg", "CASE", "Q002")] else []) := by
  have h := ng_only_escalation ngArtifactAnalyzers (fun _ => true) "ts" none
    initRegistry initTracker ⟨some "CASE"⟩ "NG" "Q002" "art.jpg" rfl rfl rfl
    (by decide)
  exact ⟨h.1, h.2.2⟩

/-- Analyzers whose CASE analysis succeeds with an OK outcome. -/
def okAnalyzers : KnownAnalyzers :=
  ⟨fun _ => ⟨some "OK", some "95%", some "OK", none⟩,
   fun _ => ⟨none, none, none, none⟩, fun _ => ⟨none, none, none, none⟩,
   fun _ => ⟨none, none, none, none⟩, fun _ => ⟨none, none, none, none⟩⟩

/-- C3 counterexample: analysis of a CASE request sets the terminal status
COMPLETED, but when send_result_to_node_red raises, the except branch of
global_task_worker overwrites that terminal status with ERROR and increments
the revision: a sink delivery failure does affect the StatusRegistry state. -/
theorem sink_failure_changes_status :
    statusOf (process_task_analysis okAnalyzers (fun _ => true) "ts" none
      initRegistry initTracker ⟨some "CASE"⟩).registry "CASE" = "COMPLETED" ∧
    statusOf (global_task_worker_iter okAnalyzers (fun _ => true) "ts" none
      SinkBehavior.raises initRegistry initTracker ⟨some "CASE"⟩).registry
      "CASE" = "ERROR" ∧
    revOf (global_task_worker_iter okAnalyzers (fun _ => true) "ts" none
      SinkBehavior.raises initRegistry initTracker ⟨some "CASE"⟩).registry
      "CASE" =
    revOf (process_task_analysis okAnalyzers (fun _ => true) "ts" none
      initRegistry initTracker ⟨some "CASE"⟩).registry "CASE" + 1 := by
  decide

/-- C3 (amended): a failure of send_result_to_node_red is caught at the worker
loop boundary and the global task lock is still released on that path (the with
block guarantees release before the except handler runs), and the tracker and
ledger keep exactly the state analysis produced; but the failure is not
status-neutral: the except branch overwrites the task's terminal status with
ERROR and increments its revision, whereas on successful delivery the registry
is exactly the one process_task_analysis produced. -/
theorem sink_failure_isolation (an : KnownAnalyzers) (fsExists : String → Bool)
    (now : String) (orderFile : Option OrderData) (r : Registry)
    (tk : TrackerState) (req : TaskReq) :
    (global_task_worker_iter an fsExists now orderFile SinkBehavior.raises r tk
      req).lockReleased = true ∧
    (global_task_worker_iter an fsExists now orderFile SinkBehavior.raises r tk
      req).tracker =
      (process_task_analysis an fsExists now orderFile r tk req).tracker ∧
    (global_task_worker_iter an fsExists now orderFile SinkBehavior.raises r tk
      req).registry =
      update_task_status
        (process_task_analysis an fsExists now orderFile r tk req).registry
        (task_name_of req) "ERROR" ∧
    (global_task_worker_iter an fsExists now orderFile SinkBehavior.ok r tk
      req).lockReleased = true ∧
    (global_task_worker_iter an fsExists now orderFile SinkBehavior.ok r tk
      req).registry =
      (process_task_analysis an fsExists now orderFile r tk req).registry :=
  ⟨rfl, rfl, rfl, rfl, rfl⟩

/-- Ping behaviour where the post for CASE raises and every other type would
succeed. -/
def exnOnCase : String → PingOutcome :=
  fun t => if t = "CASE" then PingOutcome.exn else PingOutcome.ok

/-- C8 counterexample: when the post for CASE raises inside a heartbeat cycle,
the exception propagates out of the for-loop, so BOX and the remaining task
types get no delivery attempt in that same cycle. -/
theorem ping_exception_skips_cycle :
    ping_cycle_attempts exnOnCase knownTaskTypes = ["CASE"] ∧
    "BOX" ∈ knownTaskTypes ∧
    "BOX" ∉ ping_cycle_attempts exnOnCase knownTaskTypes := by
  decide

/-- Length of the heartbeat worker run equals the number of scheduled cycles:
no cycle is skipped by a failure in an earlier cycle. -/
theorem ping_status_worker_run_length (l : List (String → PingOutcome)) :
    (ping_status_worker_run l).length = l.length := by
  induction l with
  | nil => rfl
  | cons d rest ih => simp [ping_status_worker_run, ih]

/-- C8 (amended): within one heartbeat cycle a non-200 response for one task
type does not prevent the delivery attempts for the remaining types; an
exception, however, ends that cycle at the failing type because the whole
for-loop sits inside a single try block. The exception is caught by the except
handler, so the loop itself never aborts: every scheduled cycle still runs. -/
theorem ping_failure_isolation (deliver : String → PingOutcome)
    (types : List String) (hne : ∀ t ∈ types, deliver t ≠ PingOutcome.exn) :
    ping_cycle_attempts deliver types = types ∧
    (∀ rest : List (String → PingOutcome),
      (ping_status_worker_run (deliver :: rest)).length = rest.length + 1) := by
  constructor
  · induction types with
    | nil => rfl
    | cons t ts ih =>
        have h1 := hne t (List.mem_cons_self t ts)
        unfold ping_cycle_attempts
        cases hd : deliver t with
        | exn => exact absurd hd h1
        | ok => simp [ih (fun x hx => hne x (List.mem_cons_of_mem t hx))]
        | badStatus c =>
            simp [ih (fun x hx => hne x (List.mem_cons_of_mem t hx))]
  · intro rest
    simpa [ping_status_worker_run] using ping_status_worker_run_length rest

/-- Ping behaviour where CASE gets a 500 response and the rest succeed. -/
def badOnCase : String → PingOutcome :=
  fun t => if t = "CASE" then PingOutcome.badStatus 500 else PingOutcome.ok

/-- C8 witness: a 500 response for CASE still leaves all five task types
attempted in the same cycle. -/
theorem ping_failure_isolation_witness :
    ping_cycle_attempts badOnCase knownTaskTypes = knownTaskTypes :=
  (ping_failure_isolation badOnCase knownTaskTypes (by decide)).1
